import Mathlib

/-!
Verification of the i915 VMA binding / TTM buffer-migration excerpt.

The definitions below are a shallow embedding of the C source
(gem/i915_gem_ttm_move.c and i915_vma.c of the excerpt).  Pure control
flow is translated function by function; external collaborators
(GPU submission, allocators, locks, fences) are modelled by explicit
environment records whose fields give the result of each fallible call,
so that every path of the C code corresponds to a choice of environment.
Machine error codes are Int values returned negated, as in the kernel.
-/

namespace I915

/-! ## Error codes -/

def EINVAL : Int := 22
def ENOMEM : Int := 12
def EAGAIN : Int := 11
def ENOENT : Int := 2
def E2BIG : Int := 7
def EBUSY : Int := 16
def ENOSPC : Int := 28
def ENODEV : Int := 19

/-! ## Buffer contents

A buffer is a list of page values.  `ttm_move_memcpy` either clears the
destination or copies the source pages, mirroring the TTM helper that the
driver calls with kmap iterators over source and destination. -/

abbrev Content := List Nat

/-- The CPU copy/clear helper: clear writes zero pages, otherwise the
source pages are copied to the destination. -/
def ttm_move_memcpy (clear : Bool) (numPages : Nat) (src : Content) : Content :=
  if clear then List.replicate numPages 0 else src

/-! ## TTM resources and objects -/

/-- A ttm_resource together with the two placement predicates the move
code queries on it (`i915_ttm_gtt_binds_lmem` and
`i915_ttm_cpu_maps_iomem`, defined on the memory type in headers outside
the excerpt). -/
structure TTMResource where
  mem_type : Nat
  binds_lmem : Bool
  maps_iomem : Bool
deriving Repr, DecidableEq

/-- The fields of a ttm_tt read by the move path. -/
structure TTMTT where
  cached : Bool
  populated : Bool
  zero_alloc : Bool
  swapped : Bool
deriving Repr, DecidableEq

/-- Device capability bits read by `i915_ttm_cache_level`. -/
structure DrmI915 where
  has_llc : Bool
  has_snoop : Bool
deriving Repr, DecidableEq

def I915_CACHE_NONE : Nat := 0
def I915_CACHE_LLC : Nat := 1

def I915_GEM_DOMAIN_CPU : Nat := 1
def I915_GEM_DOMAIN_WC : Nat := 2

/-- i915_ttm_cache_level from the source: LLC caching only when the
device snoops, the resource does not bind lmem and the tt is cached. -/
def i915_ttm_cache_level (i915 : DrmI915) (res : TTMResource) (ttmCached : Bool) : Nat :=
  if (i915.has_llc || i915.has_snoop) && !res.binds_lmem && ttmCached then
    I915_CACHE_LLC
  else
    I915_CACHE_NONE

/-- The GEM placement bookkeeping that `i915_ttm_move` updates in its
epilogue: owning region, mem_flags, cache coherency, read/write domains
and the cached io scatter-list. -/
structure GemBook where
  region : Nat
  placements : List Nat
  flag_struct_page : Bool
  flag_iomem : Bool
  cache_coherency : Nat
  read_domains : Nat
  write_domain : Nat
  cached_io_rsgt : Option Nat
deriving Repr, DecidableEq

/-- i915_ttm_adjust_domains_after_move: WC domains for iomem or uncached
tt, CPU domains otherwise. -/
def i915_ttm_adjust_domains_after_move (book : GemBook) (res : TTMResource)
    (ttmCached : Bool) : GemBook :=
  if res.maps_iomem || !ttmCached then
    { book with write_domain := I915_GEM_DOMAIN_WC, read_domains := I915_GEM_DOMAIN_WC }
  else
    { book with write_domain := I915_GEM_DOMAIN_CPU, read_domains := I915_GEM_DOMAIN_CPU }

/-- i915_ttm_adjust_gem_after_move: migrate the recorded region to the
first allowable placement matching the new memory type, refresh the
mem_flags and recompute cache coherency.  `rtt` is
intel_region_to_ttm_type. -/
def i915_ttm_adjust_gem_after_move (i915 : DrmI915) (rtt : Nat → Nat)
    (book : GemBook) (res : TTMResource) (ttmCached : Bool) : GemBook :=
  let book1 :=
    if rtt book.region ≠ res.mem_type then
      match book.placements.find? (fun mr => rtt mr == res.mem_type && mr ≠ book.region) with
      | some mr => { book with region := mr }
      | none => book
    else book
  let book2 := { book1 with
    flag_iomem := res.maps_iomem
    flag_struct_page := !res.maps_iomem }
  { book2 with cache_coherency := i915_ttm_cache_level i915 res ttmCached }

/-- The buffer object state that the move path reads. -/
structure BufferObject where
  kernelType : Bool
  resource : TTMResource
  ttm : Option TTMTT
  numPages : Nat
  content : Content
  book : GemBook
  madv_willneed : Bool
deriving Repr, DecidableEq

def ttmCached (bo : BufferObject) : Bool :=
  match bo.ttm with
  | some t => t.cached
  | none => false

/-! ## Environment of the move path

Each field records the outcome of one fallible external call, in the
order the source makes them. -/

structure MoveEnv where
  notify_ret : Int
  populate_ret : Int
  dst_rsgt_ret : Int
  dst_rsgt_id : Nat
  prev_deps_ret : Int
  has_migrate_context : Bool
  gt_wedged : Bool
  clear_submit_ret : Int
  copy_submit_ret : Int
  src_rsgt_ret : Int
  gpu_fence_error : Int
  kzalloc_ok : Bool
  dep_presignaled : Bool
  deps_sync_ret : Int
deriving Repr, DecidableEq

/-- The completion handle of a submitted blit: the error it will
eventually signal and whether the submitted operation was a clear. -/
structure GpuFence where
  fenceError : Int
  opClear : Bool
deriving Repr, DecidableEq

/-- The destination contents once a submitted blit has executed: on
fence success the op result (zero pages for a clear, the source pages
for a copy), on fence error the destination is left as it was. -/
def gpuResult (f : GpuFence) (src dst0 : Content) (n : Nat) : Content :=
  if f.fenceError = 0 then (if f.opClear then List.replicate n 0 else src) else dst0

/-- i915_ttm_accel_move: submit a GPU clear or copy.  With
fail_gpu_migration (`fg`) the blit is always a clear.  Kernel-type
objects reject a genuine clear request. -/
def i915_ttm_accel_move (env : MoveEnv) (fg : Bool) (bo : BufferObject)
    (clear : Bool) : Except Int GpuFence :=
  if !env.has_migrate_context || env.gt_wedged then .error (-EINVAL)
  else
    let clear1 := clear || fg
    if clear1 then
      if bo.kernelType && !fg then .error (-EINVAL)
      else if env.clear_submit_ret ≠ 0 then .error env.clear_submit_ret
      else .ok { fenceError := env.gpu_fence_error, opClear := true }
    else
      if env.src_rsgt_ret ≠ 0 then .error env.src_rsgt_ret
      else if env.copy_submit_ret ≠ 0 then .error env.copy_submit_ret
      else .ok { fenceError := env.gpu_fence_error, opClear := false }

/-- A C fence pointer value: an ERR_PTR, NULL, the raw accel fence, or
the armed memcpy-work fence (which remembers the blit fence it
intercepts and the clear flag of its memcpy argument). -/
inductive CFence where
  | ferr (e : Int)
  | nullF
  | gpuF (f : GpuFence)
  | workF (dep : GpuFence) (argClear : Bool)
deriving Repr, DecidableEq

def ERR_PTR (e : Int) : CFence := if e = 0 then .nullF else .ferr e

def isErr : CFence → Bool
  | .ferr _ => true
  | _ => false

/-- Result of `__i915_ttm_move`: the returned fence value, the
destination contents at return time, and which paths ran. -/
structure TTMMoveOut where
  fence : CFence
  dst : Content
  workAllocated : Bool
  syncMemcpy : Bool
  waitedDep : Bool
  depsSynced : Bool
deriving Repr, DecidableEq

/-- __i915_ttm_move from the source.  `fg`/`fw` are the
fail_gpu_migration / fail_work_allocation selftest switches; `hasDeps`
states whether a move_deps set was passed. -/
def __i915_ttm_move (env : MoveEnv) (fg fw : Bool) (bo : BufferObject)
    (clear : Bool) (dstMem : TTMResource) (allowAccel : Bool) (hasDeps : Bool)
    (dst0 : Content) : TTMMoveOut :=
  let n := bo.numPages
  let src := bo.content
  let fence0 : Except Int GpuFence :=
    if allowAccel then i915_ttm_accel_move env fg bo clear else .error (-EINVAL)
  match fence0 with
  | .ok f =>
    if allowAccel && !dstMem.binds_lmem && !(fg || fw) then
      -- moving to system memory: no error interception needed
      { fence := .gpuF f, dst := dst0, workAllocated := false,
        syncMemcpy := false, waitedDep := false, depsSynced := false }
    else
      -- gpu migration scheduled: try to arm the error intercept
      if !fw && env.kzalloc_ok then
        if !env.dep_presignaled then
          { fence := .workF f clear, dst := dst0, workAllocated := true,
            syncMemcpy := false, waitedDep := false, depsSynced := false }
        else
          -- dma_fence_add_callback returned -ENOENT: blit already done
          let fence1 := ERR_PTR (if fg then -EINVAL else f.fenceError)
          let dst1 := gpuResult f src dst0 n
          if !(isErr fence1) then
            { fence := fence1, dst := dst1, workAllocated := true,
              syncMemcpy := false, waitedDep := false, depsSynced := false }
          else
            { fence := .nullF, dst := ttm_move_memcpy clear n src,
              workAllocated := true, syncMemcpy := true,
              waitedDep := false, depsSynced := false }
      else
        -- worker allocation failed: wait the blit synchronously
        let fence1 := ERR_PTR (if fg then -EINVAL else f.fenceError)
        let dst1 := gpuResult f src dst0 n
        if !(isErr fence1) then
          { fence := fence1, dst := dst1, workAllocated := false,
            syncMemcpy := false, waitedDep := true, depsSynced := false }
        else
          { fence := .nullF, dst := ttm_move_memcpy clear n src,
            workAllocated := false, syncMemcpy := true,
            waitedDep := true, depsSynced := false }
  | .error _ =>
    if hasDeps then
      if env.deps_sync_ret ≠ 0 then
        { fence := .ferr env.deps_sync_ret, dst := dst0, workAllocated := false,
          syncMemcpy := false, waitedDep := false, depsSynced := true }
      else
        { fence := .nullF, dst := ttm_move_memcpy clear n src,
          workAllocated := false, syncMemcpy := true,
          waitedDep := false, depsSynced := true }
    else
      { fence := .nullF, dst := ttm_move_memcpy clear n src,
        workAllocated := false, syncMemcpy := true,
        waitedDep := false, depsSynced := false }

/-- Which deferred context the armed continuation ran in once the blit
fence resolved. -/
inductive ResolvePath where
  | worker
  | irq
deriving Repr, DecidableEq

/-- Resolution of the fence returned by `__i915_ttm_move`: the armed
work's `__memcpy_cb` queues the CPU copy on the worker when the fence
signalled an error (or fail_gpu_migration is set) and otherwise only
signals from irq context; a raw accel fence just leaves the blit
result. -/
def resolveMoveFence (fg : Bool) (src : Content) (n : Nat) (o : TTMMoveOut) :
    Content × Option ResolvePath :=
  match o.fence with
  | .workF f argClear =>
    if f.fenceError ≠ 0 || fg then (ttm_move_memcpy argClear n src, some .worker)
    else (gpuResult f src o.dst n, some .irq)
  | .gpuF f => (gpuResult f src o.dst n, none)
  | _ => (o.dst, none)

/-- Result of the full `i915_ttm_move` entry point: return code, the
placement bookkeeping afterwards, the eventual destination contents
(once any armed continuation has resolved) and trace bits. -/
structure MoveResult where
  ret : Int
  book : GemBook
  finalDst : Content
  purged : Bool
  dstFreed : Bool
  ranMove : Bool
  workAllocated : Bool
  syncMemcpy : Bool
  waitedDep : Bool
  depsSynced : Bool
  resolved : Option ResolvePath
deriving Repr, DecidableEq

/-- An error exit of `i915_ttm_move` before the epilogue. -/
def moveErrResult (e : Int) (bo : BufferObject) (dst0 : Content) : MoveResult :=
  { ret := e, book := bo.book, finalDst := dst0, purged := false, dstFreed := false,
    ranMove := false, workAllocated := false, syncMemcpy := false, waitedDep := false,
    depsSynced := false, resolved := none }

/-- The success epilogue of `i915_ttm_move`: adjust domains, drop the
old cached io scatter-list, cache the destination one for lmem/iomem
placements, and adjust the gem state. -/
def moveEpilogue (env : MoveEnv) (i915 : DrmI915) (rtt : Nat → Nat)
    (book : GemBook) (dstMem : TTMResource) (cached : Bool) : GemBook :=
  let b1 := i915_ttm_adjust_domains_after_move book dstMem cached
  let b2 := { b1 with cached_io_rsgt := none }
  let b3 :=
    if dstMem.binds_lmem || dstMem.maps_iomem then
      { b2 with cached_io_rsgt := some env.dst_rsgt_id }
    else b2
  i915_ttm_adjust_gem_after_move i915 rtt b3 dstMem cached

/-- i915_ttm_move, the TTM move callback: notify-prepare, the
madvise-discard purge path, tt population, the clear decision, the
dependency collection, `__i915_ttm_move`, and the epilogue that runs
only on success. -/
def i915_ttm_move (env : MoveEnv) (fg fw : Bool) (i915 : DrmI915)
    (rtt : Nat → Nat) (bo : BufferObject) (dstMem : TTMResource)
    (dstManUseTt : Bool) (dst0 : Content) : MoveResult :=
  if env.notify_ret ≠ 0 then moveErrResult env.notify_ret bo dst0
  else if !bo.madv_willneed then
    { ret := 0, book := bo.book, finalDst := dst0, purged := true, dstFreed := true,
      ranMove := false, workAllocated := false, syncMemcpy := false, waitedDep := false,
      depsSynced := false, resolved := none }
  else
    let popFail :=
      match bo.ttm with
      | some t => (dstManUseTt || t.swapped) && env.populate_ret ≠ 0
      | none => false
    if popFail then moveErrResult env.populate_ret bo dst0
    else if env.dst_rsgt_ret ≠ 0 then moveErrResult env.dst_rsgt_ret bo dst0
    else
      let populated :=
        match bo.ttm with
        | some t => t.populated
        | none => false
      let clear := !bo.resource.maps_iomem && (bo.ttm.isNone || !populated)
      let zeroAlloc :=
        match bo.ttm with
        | some t => t.zero_alloc
        | none => false
      if !(clear && bo.ttm.isSome && !zeroAlloc) then
        if env.prev_deps_ret ≠ 0 then moveErrResult env.prev_deps_ret bo dst0
        else
          let o := __i915_ttm_move env fg fw bo clear dstMem true true dst0
          match o.fence with
          | .ferr e =>
            { ret := e, book := bo.book, finalDst := o.dst, purged := false,
              dstFreed := false, ranMove := true, workAllocated := o.workAllocated,
              syncMemcpy := o.syncMemcpy, waitedDep := o.waitedDep,
              depsSynced := o.depsSynced, resolved := none }
          | _ =>
            let rp := resolveMoveFence fg bo.content bo.numPages o
            { ret := 0,
              book := moveEpilogue env i915 rtt bo.book dstMem (ttmCached bo),
              finalDst := rp.1, purged := false, dstFreed := false,
              ranMove := true, workAllocated := o.workAllocated,
              syncMemcpy := o.syncMemcpy, waitedDep := o.waitedDep,
              depsSynced := o.depsSynced, resolved := rp.2 }
      else
        -- pages are freshly zero-allocated: nothing to move
        { ret := 0,
          book := moveEpilogue env i915 rtt bo.book dstMem (ttmCached bo),
          finalDst := dst0, purged := false, dstFreed := false,
          ranMove := false, workAllocated := false, syncMemcpy := false,
          waitedDep := false, depsSynced := false, resolved := none }

/-! ## VMA registry (obj->vma tree and list)

A VMA maps one object into one address space under one view.  The
red-black tree of `obj->vma.tree` is embedded as its in-order contents:
a list ordered by the comparator key, with lookup descending by
comparison and creation inserting at the position where the descent
ends. -/

def PAGE_SIZE : Nat := 4096

/-- A ggtt view.  The rotated/remapped variants carry the page count
their geometry maps to (`intel_rotation_info_size` /
`intel_remapped_info_size` applied to the plane description). -/
inductive GGTTView where
  | normal
  | partView (offsetPages : Nat) (sizePages : Nat)
  | rotated (sizePages : Nat)
  | remapped (sizePages : Nat)
deriving Repr, DecidableEq

/-- The mapping size `vma_create` computes for a view. -/
def vmaViewSize (objSize : Nat) : GGTTView → Nat
  | .normal => objSize
  | .partView _ s => s * PAGE_SIZE
  | .rotated s => s * PAGE_SIZE
  | .remapped s => s * PAGE_SIZE

def viewRank : GGTTView → Nat
  | .normal => 0
  | .partView _ _ => 1
  | .rotated _ => 2
  | .remapped _ => 3

def viewParams : GGTTView → Nat × Nat
  | .normal => (0, 0)
  | .partView o s => (o, s)
  | .rotated s => (s, 0)
  | .remapped s => (s, 0)

/-- Modelled from the spec: `i915_vma_compare` lives in a header outside
the excerpt; the spec specifies a total-order comparator over
(address-space identity, view type, view parameters). -/
def vmaKeyCompare (vmId1 : Nat) (v1 : GGTTView) (vmId2 : Nat) (v2 : GGTTView) : Ordering :=
  (compare vmId1 vmId2).then
    ((compare (viewRank v1) (viewRank v2)).then
      ((compare (viewParams v1).1 (viewParams v2).1).then
        (compare (viewParams v1).2 (viewParams v2).2)))

structure VMA where
  id : Nat
  vmId : Nat
  view : GGTTView
  size : Nat
deriving Repr, DecidableEq

def i915_vma_compare (pos : VMA) (vmId : Nat) (view : GGTTView) : Ordering :=
  vmaKeyCompare pos.vmId pos.view vmId view

/-- The address-space attributes `vma_create` reads. -/
structure VmCfg where
  vmId : Nat
  total : Nat
  is_ggtt : Bool
deriving Repr, DecidableEq

/-- The object's VMA index: the ordered tree and the object's VMA list
(ggtt views at the front, ppgtt views at the tail). -/
structure VmaForest where
  tree : List VMA
  vlist : List VMA
deriving Repr, DecidableEq

/-- i915_vma_lookup: descend the tree by comparison.  On the ordered
contents this is the first (unique) key match. -/
def i915_vma_lookup (t : List VMA) (vmId : Nat) (view : GGTTView) : Option VMA :=
  t.find? (fun v => i915_vma_compare v vmId view == Ordering.eq)

/-- Insertion at the position where the tree descent ends. -/
def treeInsert (v : VMA) : List VMA → List VMA
  | [] => [v]
  | x :: t =>
    match i915_vma_compare x v.vmId v.view with
    | .lt => x :: treeInsert v t
    | _ => v :: x :: t

/-- vma_create: compute the view size, fail with -E2BIG when it exceeds
the address space (or the ggtt fence-size checks fail), then walk the
tree; if another creation won the race for the same key, discard the new
instance and return the older one, otherwise insert. -/
def vma_create (newId : Nat) (objSize : Nat) (fenceSize : Nat → Nat) (vm : VmCfg)
    (view : GGTTView) (reg : VmaForest) : Except Int VMA × VmaForest :=
  let size := vmaViewSize objSize view
  if size > vm.total then (.error (-E2BIG), reg)
  else if vm.is_ggtt &&
      (size ≥ 2 ^ 32 || fenceSize size < size || fenceSize size > vm.total) then
    (.error (-E2BIG), reg)
  else
    match i915_vma_lookup reg.tree vm.vmId view with
    | some pos => (.ok pos, reg)
    | none =>
      let vma : VMA := { id := newId, vmId := vm.vmId, view := view, size := size }
      (.ok vma,
        { tree := treeInsert vma reg.tree
          vlist := if vm.is_ggtt then vma :: reg.vlist else reg.vlist ++ [vma] })

/-- i915_vma_instance: look up an existing VMA, create one on a miss. -/
def i915_vma_instance (newId : Nat) (objSize : Nat) (fenceSize : Nat → Nat)
    (vm : VmCfg) (view : GGTTView) (reg : VmaForest) : Except Int VMA × VmaForest :=
  match i915_vma_lookup reg.tree vm.vmId view with
  | some vma => (.ok vma, reg)
  | none => vma_create newId objSize fenceSize vm view reg

/-- Key distinctness of the index: no two entries compare equal. -/
def TreeUnique (t : List VMA) : Prop :=
  t.Pairwise (fun a b => ¬(a.vmId = b.vmId ∧ a.view = b.view))

/-! ## Address-space nodes and cache coloring -/

structure MMNode where
  start : Nat
  size : Nat
  color : Nat
deriving Repr, DecidableEq

/-- Allocated nodes kept ordered and disjoint (the drm_mm invariant). -/
def NodesOrdered (l : List MMNode) : Prop :=
  l.Chain' (fun a b => a.start + a.size ≤ b.start)

def overlapsB (a b : MMNode) : Bool :=
  max a.start b.start < min (a.start + a.size) (b.start + b.size)

/-- The node placed immediately before a prospective start address. -/
def prevNode (l : List MMNode) (s : Nat) : Option MMNode :=
  (l.takeWhile (fun m => m.start < s)).getLast?

/-- The node placed immediately after a prospective start address. -/
def nextNode (l : List MMNode) (s : Nat) : Option MMNode :=
  (l.dropWhile (fun m => m.start < s)).head?

/-- Modelled from the spec: the coloring admissibility check of the
allocator (§4.1) — the immediate neighbors of a new node must share its
color or be separated from it by a hole. -/
def colorOkB (hasColoring : Bool) (l : List MMNode) (n : MMNode) : Bool :=
  !hasColoring ||
  ((match prevNode l n.start with
    | none => true
    | some p => p.color == n.color || p.start + p.size < n.start) &&
   (match nextNode l n.start with
    | none => true
    | some m => m.color == n.color || n.start + n.size < m.start))

/-- Modelled from the spec: `i915_gem_gtt_reserve` and the underlying
drm_mm allocator are outside the excerpt.  Reservation at a fixed
offset fails on out-of-range or occupied space and rejects a placement
violating the coloring constraint (`Conflict`); on success the node is
inserted in address order. -/
def i915_gem_gtt_reserve (hasColoring : Bool) (total : Nat) (l : List MMNode)
    (n : MMNode) : Except Int (List MMNode) :=
  if n.start + n.size > total then .error (-ENOSPC)
  else if l.any (fun m => overlapsB m n) then .error (-ENOSPC)
  else if !colorOkB hasColoring l n then .error (-EINVAL)
  else .ok (l.takeWhile (fun m => m.start < n.start) ++
            n :: l.dropWhile (fun m => m.start < n.start))

/-- Modelled from the spec: `i915_gem_gtt_insert` (best-fit search) is
outside the excerpt.  The allocator's candidate placement is part of the
environment; a candidate is accepted only if it lies in range, overlaps
nothing and satisfies the coloring constraint, otherwise the search
reports exhaustion. -/
def i915_gem_gtt_insert (hasColoring : Bool) (total : Nat) (l : List MMNode)
    (n : MMNode) : Except Int (List MMNode) :=
  if n.start + n.size > total then .error (-ENOSPC)
  else if l.any (fun m => overlapsB m n) then .error (-ENOSPC)
  else if !colorOkB hasColoring l n then .error (-ENOSPC)
  else .ok (l.takeWhile (fun m => m.start < n.start) ++
            n :: l.dropWhile (fun m => m.start < n.start))

/-- i915_gem_valid_gtt_space from the source: with cache coloring
enabled, the node's previous and next entries in the address list must
share its color or be separated from it by a hole. -/
def i915_gem_valid_gtt_space (hasColoring : Bool) (l : List MMNode) (n : MMNode) : Bool :=
  if !hasColoring then true
  else
    (match (l.takeWhile (fun m => m.start < n.start)).getLast? with
     | none => true
     | some p => !(p.color != n.color && !(p.start + p.size < n.start))) &&
    (match (l.dropWhile (fun m => m.start ≤ n.start)).head? with
     | none => true
     | some m => !(m.color != n.color && !(n.start + n.size < m.start)))

/-- The request parameters of `i915_vma_insert`: requested size,
alignment, an optional PIN_OFFSET_FIXED offset and the allocator's
candidate offset for the search path. -/
structure VmaInsertReq where
  reqSize : Nat
  alignment : Nat
  fixedOffset : Option Nat
  candidateStart : Nat
deriving Repr, DecidableEq

/-- The color `i915_vma_insert` passes to the allocator: the object's
cache level when the vm uses cache coloring, zero otherwise. -/
def insertColor (hasColoring : Bool) (cacheLevel : Nat) : Nat :=
  if hasColoring then cacheLevel else 0

/-- i915_vma_insert: take the larger of the requested and the vma size,
fast-fail when it exceeds the space, compute the color from the object's
cache level, then reserve at the fixed offset or place via the search. -/
def i915_vma_insert (hasColoring : Bool) (total : Nat) (cacheLevel : Nat)
    (vmaSize : Nat) (l : List MMNode) (req : VmaInsertReq) :
    Except Int (MMNode × List MMNode) :=
  let size := max req.reqSize vmaSize
  if size > total then .error (-ENOSPC)
  else
    match req.fixedOffset with
    | some offset =>
      if offset % max req.alignment 1 ≠ 0 || offset + size > total then .error (-EINVAL)
      else
        match i915_gem_gtt_reserve hasColoring total l
            { start := offset, size := size,
              color := insertColor hasColoring cacheLevel } with
        | .ok l1 =>
          .ok ({ start := offset, size := size,
                 color := insertColor hasColoring cacheLevel }, l1)
        | .error e => .error e
    | none =>
      match i915_gem_gtt_insert hasColoring total l
          { start := req.candidateStart, size := size,
            color := insertColor hasColoring cacheLevel } with
      | .ok l1 =>
        .ok ({ start := req.candidateStart, size := size,
               color := insertColor hasColoring cacheLevel }, l1)
      | .error e => .error e

/-! ## VMA binding engine state

The observable per-VMA state the pin/unbind paths read and write:
bind-state flag bits, the pin count, the allocated address-space node
and the pages reference counts (`pages_count` low part and the bindings
count kept in its upper bits). -/

structure VmaSt where
  bound_global : Bool
  bound_local : Bool
  pin_count : Nat
  error_bit : Bool
  can_fence : Bool
  node : Option MMNode
  pages_count : Nat
  pages_bind_count : Nat
  closed : Bool
deriving Repr, DecidableEq

/-- Modelled from the spec: the pin-count wraparound guard
(`I915_VMA_PIN_MASK` bit-width coincidence, spec §9) is an explicit
maximum pin count. -/
def PIN_LIMIT : Nat := 1024

def vmaBindMaskZero (st : VmaSt) : Bool := !st.bound_global && !st.bound_local

/-- Whether the bound bits already satisfy the requested bind flags
(`!(flags & ~bound & I915_VMA_BIND_MASK)`). -/
def bindSatisfied (st : VmaSt) (reqG reqU : Bool) : Bool :=
  (!reqG || st.bound_global) && (!reqU || st.bound_local)

/-! ### Environment of the pin path -/

structure PinEnv where
  get_pages_ret : Int
  has_moving : Bool
  bind_async : Bool
  lock_objects_ret : Int
  work_alloc_ok : Bool
  allocate_va_range : Bool
  pt_stash_ret : Int
  pt_map_ret : Int
  vma_res_ret : Int
  mutex_ret : Int
  active_ret : Int
  insert_ret : Int
  insert_node : MMNode
  fenceable : Bool
  mappable : Bool
  bind_dep_ret : Int
  wait_moving_ret : Int
  range_ok : Bool
deriving Repr, DecidableEq

structure PinFlags where
  global : Bool
  user : Bool
  validate : Bool
deriving Repr, DecidableEq

/-- i915_vma_bind: compute the missing bind bits, await or sync the
unbind dependencies over the node's range, then program the PTEs
asynchronously through the worker or inline after waiting any moving
fence; the bind bits are or-ed in only on success. -/
def i915_vma_bind (env : PinEnv) (st : VmaSt) (reqG reqU : Bool)
    (hasWork : Bool) : Int × VmaSt :=
  if !env.range_ok then (-ENODEV, st)
  else if !reqG && !reqU then (-EINVAL, st)
  else
    let bindG := reqG && !st.bound_global
    let bindU := reqU && !st.bound_local
    if !bindG && !bindU then (0, st)
    else if env.bind_dep_ret ≠ 0 then (env.bind_dep_ret, st)
    else if hasWork && env.bind_async then
      (0, { st with bound_global := st.bound_global || bindG,
                    bound_local := st.bound_local || bindU })
    else if env.wait_moving_ret ≠ 0 then (env.wait_moving_ret, st)
    else
      (0, { st with bound_global := st.bound_global || bindG,
                    bound_local := st.bound_local || bindU })

def __i915_vma_set_map_and_fenceable (env : PinEnv) (st : VmaSt) : VmaSt :=
  { st with can_fence := env.mappable && env.fenceable }

/-- Whether the pin path must set up async-bind work (the vm binds
asynchronously for the requested flags, or the object has an
outstanding moving fence). -/
def pinNeedsWork (env : PinEnv) : Bool := env.bind_async || env.has_moving

/-- The vma state after `i915_vma_insert` and (for ggtt)
`__i915_vma_set_map_and_fenceable` on the unbound path; untouched when
some bind bit is already set. -/
def pinInsertState (env : PinEnv) (isGgtt : Bool) (st1 : VmaSt) : VmaSt :=
  if vmaBindMaskZero st1 then
    if isGgtt then
      __i915_vma_set_map_and_fenceable env { st1 with node := some env.insert_node }
    else { st1 with node := some env.insert_node }
  else st1

/-- The success epilogue under the mutex: account the binding in the
upper pages_count bits and take the pin unless probing. -/
def pinSuccessState (flags : PinFlags) (st : VmaSt) : VmaSt :=
  if flags.validate then
    { st with pages_count := st.pages_count + 1
              pages_bind_count := st.pages_bind_count + 1 }
  else
    { st with pages_count := st.pages_count + 1
              pages_bind_count := st.pages_bind_count + 1
              pin_count := st.pin_count + 1 }

/-- The error exits of the pin slow path before anything is modified:
work setup (lock objects, worker allocation, page-table stash), the vma
resource allocation, the vm mutex, and the closed / error-bit /
pin-overflow checks under the mutex. -/
def pinEarlyErr (env : PinEnv) (st1 : VmaSt) : Option Int :=
  if pinNeedsWork env && env.lock_objects_ret ≠ 0 then some env.lock_objects_ret
  else if pinNeedsWork env && !env.work_alloc_ok then some (-ENOMEM)
  else if pinNeedsWork env && env.allocate_va_range && env.pt_stash_ret ≠ 0 then
    some env.pt_stash_ret
  else if pinNeedsWork env && env.allocate_va_range && env.pt_map_ret ≠ 0 then
    some env.pt_map_ret
  else if env.vma_res_ret ≠ 0 then some env.vma_res_ret
  else if env.mutex_ret ≠ 0 then some env.mutex_ret
  else if st1.closed then some (-ENOENT)
  else if st1.error_bit then some (-ENOMEM)
  else if st1.pin_count + 1 ≥ PIN_LIMIT then some (-EAGAIN)
  else none

/-- The slow path of `i915_vma_pin_ww` after `i915_vma_get_pages`
succeeded: the early error exits, the already-satisfied fast exit under
the mutex, `i915_active_acquire`, node insertion, binding, and the
rollback labels up to err_unlock. -/
def __i915_vma_pin_ww_slow (env : PinEnv) (isGgtt : Bool) (flags : PinFlags)
    (st1 : VmaSt) : Int × VmaSt :=
  match pinEarlyErr env st1 with
  | some e => (e, st1)
  | none =>
    if bindSatisfied st1 flags.global flags.user then
      (0, if flags.validate then st1 else { st1 with pin_count := st1.pin_count + 1 })
    else if env.active_ret ≠ 0 then (env.active_ret, st1)
    else if vmaBindMaskZero st1 && env.insert_ret ≠ 0 then
      -- err_active: the node was never allocated
      (env.insert_ret, st1)
    else
      match i915_vma_bind env (pinInsertState env isGgtt st1) flags.global flags.user
          (pinNeedsWork env) with
      | (e, stb) =>
        if e ≠ 0 then
          -- err_remove: detach and free the node if the vma stayed unbound
          (e, if vmaBindMaskZero stb then { stb with node := none } else stb)
        else (0, pinSuccessState flags stb)

/-- i915_vma_pin_ww: the qad fast path, page acquisition, then the slow
path; `i915_vma_put_pages` runs on every exit, releasing the reference
`i915_vma_get_pages` took. -/
def i915_vma_pin_ww (env : PinEnv) (isGgtt : Bool) (flags : PinFlags)
    (st : VmaSt) : Int × VmaSt :=
  let satisfied := bindSatisfied st flags.global flags.user
  -- try_qad_pin
  if flags.validate && satisfied then (0, st)
  else if !flags.validate && satisfied && !st.error_bit &&
      st.pin_count + 1 < PIN_LIMIT then
    (0, { st with pin_count := st.pin_count + 1 })
  else if env.get_pages_ret ≠ 0 then (env.get_pages_ret, st)
  else
    let r := __i915_vma_pin_ww_slow env isGgtt flags
      { st with pages_count := st.pages_count + 1 }
    (r.1, { r.2 with pages_count := r.2.pages_count - 1 })

/-! ### Unbind paths -/

structure UnbindEnv where
  sync_ret : Int
  lock_ret : Int
  rsgt_present : Bool
  reserve_ret : Int
  trylock_ok : Bool
  await_active_ok : Bool
  pages_match : Bool
deriving Repr, DecidableEq

/-- __i915_vma_evict: revoke mappings, clear the bind/error/write bits
and the fence capability, and release the binding references on the
pages. -/
def __i915_vma_evict (st : VmaSt) : VmaSt :=
  { st with bound_global := false, bound_local := false, error_bit := false,
            can_fence := false,
            pages_count := st.pages_count - st.pages_bind_count,
            pages_bind_count := 0 }

/-- __i915_vma_unbind: nothing to do without a node; a pinned vma fails
fast with -EAGAIN; otherwise wait for laggard users, evict and remove
the node. -/
def __i915_vma_unbind (env : UnbindEnv) (st : VmaSt) : Int × VmaSt :=
  match st.node with
  | none => (0, st)
  | some _ =>
    if 0 < st.pin_count then (-EAGAIN, st)
    else if env.sync_ret ≠ 0 then (env.sync_ret, st)
    else (0, { __i915_vma_evict st with node := none })

/-- i915_vma_unbind: optimistic sync, the node and pin checks, then the
locked `__i915_vma_unbind`. -/
def i915_vma_unbind (env : UnbindEnv) (st : VmaSt) : Int × VmaSt :=
  if env.sync_ret ≠ 0 then (env.sync_ret, st)
  else
    match st.node with
    | none => (0, st)
    | some _ =>
      if 0 < st.pin_count then (-EAGAIN, st)
      else if env.lock_ret ≠ 0 then (env.lock_ret, st)
      else __i915_vma_unbind env st

/-- __i915_vma_unbind_async: a pinned vma (or one whose backing pages
are not the object's refcounted sg-table) fails fast with -EAGAIN;
awaiting the active users may fail with -EBUSY; otherwise evict without
blocking. -/
def __i915_vma_unbind_async (env : UnbindEnv) (st : VmaSt) : Int × VmaSt :=
  match st.node with
  | none => (0, st)
  | some _ =>
    if 0 < st.pin_count || !env.pages_match then (-EAGAIN, st)
    else if !env.await_active_ok then (-EBUSY, st)
    else (0, { __i915_vma_evict st with node := none })

/-- i915_vma_unbind_async: never blocks; checks node, pin count and the
refcounted sg-table, reserves a shared fence slot, takes the vm mutex
(trylock variant fails fast with -EBUSY) and runs the async unbind. -/
def i915_vma_unbind_async (env : UnbindEnv) (st : VmaSt) (trylockVm : Bool) :
    Int × VmaSt :=
  match st.node with
  | none => (0, st)
  | some _ =>
    if 0 < st.pin_count then (-EAGAIN, st)
    else if !env.rsgt_present then (-EBUSY, st)
    else if env.reserve_ret ≠ 0 then (-EBUSY, st)
    else if trylockVm && !env.trylock_ok then (-EBUSY, st)
    else if !trylockVm && env.lock_ret ≠ 0 then (env.lock_ret, st)
    else __i915_vma_unbind_async env st

/-! ## Concrete fixtures used by witnesses and counterexamples -/

def sampleEnvOk : MoveEnv :=
  { notify_ret := 0, populate_ret := 0, dst_rsgt_ret := 0, dst_rsgt_id := 7,
    prev_deps_ret := 0, has_migrate_context := true, gt_wedged := false,
    clear_submit_ret := 0, copy_submit_ret := 0, src_rsgt_ret := 0,
    gpu_fence_error := 0, kzalloc_ok := true, dep_presignaled := false,
    deps_sync_ret := 0 }

def sampleEnvNotifyFail : MoveEnv := { sampleEnvOk with notify_ret := -5 }

def sampleBook : GemBook :=
  { region := 1, placements := [1, 2], flag_struct_page := true, flag_iomem := false,
    cache_coherency := 0, read_domains := 1, write_domain := 1, cached_io_rsgt := none }

def sampleTT : TTMTT :=
  { cached := true, populated := true, zero_alloc := false, swapped := false }

def sampleBo : BufferObject :=
  { kernelType := false,
    resource := { mem_type := 0, binds_lmem := false, maps_iomem := false },
    ttm := some sampleTT, numPages := 3, content := [5, 6, 7],
    book := sampleBook, madv_willneed := true }

def sampleBoDiscard : BufferObject := { sampleBo with madv_willneed := false }

def sampleLmem : TTMResource := { mem_type := 2, binds_lmem := true, maps_iomem := true }

def sampleSys : TTMResource := { mem_type := 0, binds_lmem := false, maps_iomem := false }

def sampleI915 : DrmI915 := { has_llc := true, has_snoop := false }

/-! ## Claims about the migration engine -/

/-- Claim C1: with the GPU-migration-failure fault switch enabled and the
fallback-task-allocation fault switch disabled (and the external calls of
the path succeeding), a move of a populated buffer returns success, the
CPU fallback continuation runs on the deferred worker path, and the
destination contents equal the source contents byte for byte. -/
theorem C1_worker_fallback_correct
    (env : MoveEnv) (i915 : DrmI915) (rtt : Nat → Nat) (bo : BufferObject)
    (dstMem : TTMResource) (useTt : Bool) (dst0 : Content) (t : TTMTT)
    (httm : bo.ttm = some t) (hpop : t.populated = true)
    (hmadv : bo.madv_willneed = true)
    (hn : env.notify_ret = 0) (hp : env.populate_ret = 0)
    (hr : env.dst_rsgt_ret = 0) (hpd : env.prev_deps_ret = 0)
    (hctx : env.has_migrate_context = true) (hw : env.gt_wedged = false)
    (hcs : env.clear_submit_ret = 0) (hk : env.kzalloc_ok = true)
    (hds : env.dep_presignaled = false) :
    (i915_ttm_move env true false i915 rtt bo dstMem useTt dst0).ret = 0 ∧
    (i915_ttm_move env true false i915 rtt bo dstMem useTt dst0).resolved = some .worker ∧
    (i915_ttm_move env true false i915 rtt bo dstMem useTt dst0).finalDst = bo.content := by
  simp [i915_ttm_move, __i915_ttm_move, i915_ttm_accel_move, resolveMoveFence,
        ttm_move_memcpy, httm, hpop, hmadv, hn, hp, hr, hpd, hctx, hw, hcs, hk, hds]

/-- Claim C1, witness at a concrete populated buffer. -/
theorem C1_witness :
    (i915_ttm_move sampleEnvOk true false sampleI915 (fun r => r) sampleBo sampleLmem
        true [0, 0, 0]).ret = 0 ∧
    (i915_ttm_move sampleEnvOk true false sampleI915 (fun r => r) sampleBo sampleLmem
        true [0, 0, 0]).resolved = some .worker ∧
    (i915_ttm_move sampleEnvOk true false sampleI915 (fun r => r) sampleBo sampleLmem
        true [0, 0, 0]).finalDst = sampleBo.content :=
  C1_worker_fallback_correct sampleEnvOk sampleI915 (fun r => r) sampleBo sampleLmem
    true [0, 0, 0] sampleTT rfl rfl rfl rfl rfl rfl rfl rfl rfl rfl rfl rfl

/-- Claim C2: whenever the migration entry point returns a nonzero error,
the buffer's placement bookkeeping (region, mem_flags, cache coherency,
read/write domains, cached io scatter-list) is unchanged: the epilogue
runs only on the success path. -/
theorem C2_move_error_keeps_book (env : MoveEnv) (fg fw : Bool) (i915 : DrmI915)
    (rtt : Nat → Nat) (bo : BufferObject) (dstMem : TTMResource) (useTt : Bool)
    (dst0 : Content)
    (h : (i915_ttm_move env fg fw i915 rtt bo dstMem useTt dst0).ret ≠ 0) :
    (i915_ttm_move env fg fw i915 rtt bo dstMem useTt dst0).book = bo.book := by
  have hgen : ∀ r : MoveResult, r = i915_ttm_move env fg fw i915 rtt bo dstMem useTt dst0 →
      r.ret ≠ 0 → r.book = bo.book := by
    intro r hr
    unfold i915_ttm_move at hr
    dsimp only at hr
    repeat' split at hr
    all_goals subst hr
    all_goals intro hh
    all_goals first
      | rfl
      | exact absurd rfl hh
  exact hgen _ rfl h

/-- Claim C2, witness: a failing notify-prepare step leaves the
bookkeeping untouched. -/
theorem C2_witness :
    (i915_ttm_move sampleEnvNotifyFail false false sampleI915 (fun r => r) sampleBo
        sampleLmem true [0, 0, 0]).book = sampleBo.book :=
  C2_move_error_keeps_book sampleEnvNotifyFail false false sampleI915 (fun r => r)
    sampleBo sampleLmem true [0, 0, 0] (by decide)

/-- Claim C5, counterexample: with both fault switches off, a populated
buffer moved to system memory has a successful accelerated submission,
yet no fallback task is armed — `__i915_ttm_move` returns the raw GPU
fence and the full move succeeds without any armed continuation.  This
refutes "the fallback is armed after every successful accelerated
submission, regardless of destination memory type". -/
theorem C5_counterexample :
    i915_ttm_accel_move sampleEnvOk false sampleBo false =
      .ok { fenceError := 0, opClear := false } ∧
    (__i915_ttm_move sampleEnvOk false false sampleBo false sampleSys true true
        [0, 0, 0]).workAllocated = false ∧
    (__i915_ttm_move sampleEnvOk false false sampleBo false sampleSys true true
        [0, 0, 0]).fence = .gpuF { fenceError := 0, opClear := false } ∧
    (i915_ttm_move sampleEnvOk false false sampleI915 (fun r => r) sampleBo sampleSys
        true [0, 0, 0]).ret = 0 ∧
    (i915_ttm_move sampleEnvOk false false sampleI915 (fun r => r) sampleBo sampleSys
        true [0, 0, 0]).workAllocated = false ∧
    (i915_ttm_move sampleEnvOk false false sampleI915 (fun r => r) sampleBo sampleSys
        true [0, 0, 0]).resolved = none :=
  ⟨rfl, rfl, rfl, rfl, rfl, rfl⟩

/-- Claim C5 as amended: after a successful accelerated submission the
asynchronous software fallback is armed only when the destination binds
local memory or a fault switch forces interception (and the task
allocation succeeds and the blit fence is not already signalled); its
continuation performs the CPU memcpy/clear on the deferred worker when
the fence signalled an error (or fail_gpu_migration is set) and does
nothing further when the fence signalled success. -/
theorem C5_arm_only_for_lmem (env : MoveEnv) (fg fw : Bool) (bo : BufferObject)
    (clear : Bool) (dstMem : TTMResource) (hasDeps : Bool) (dst0 : Content) (f : GpuFence)
    (hacc : i915_ttm_accel_move env fg bo clear = .ok f)
    (hwhy : dstMem.binds_lmem = true ∨ fg = true ∨ fw = true)
    (hfw : fw = false) (hk : env.kzalloc_ok = true) (hds : env.dep_presignaled = false) :
    (__i915_ttm_move env fg fw bo clear dstMem true hasDeps dst0).fence = .workF f clear ∧
    (__i915_ttm_move env fg fw bo clear dstMem true hasDeps dst0).workAllocated = true ∧
    ((f.fenceError ≠ 0 ∨ fg = true) →
      resolveMoveFence fg bo.content bo.numPages
          (__i915_ttm_move env fg fw bo clear dstMem true hasDeps dst0) =
        (ttm_move_memcpy clear bo.numPages bo.content, some .worker)) ∧
    (f.fenceError = 0 → fg = false →
      resolveMoveFence fg bo.content bo.numPages
          (__i915_ttm_move env fg fw bo clear dstMem true hasDeps dst0) =
        (gpuResult f bo.content dst0 bo.numPages, some .irq)) := by
  subst hfw
  have hmain : __i915_ttm_move env fg false bo clear dstMem true hasDeps dst0 =
      { fence := .workF f clear, dst := dst0, workAllocated := true,
        syncMemcpy := false, waitedDep := false, depsSynced := false } := by
    rcases hwhy with h | h | h
    · simp [__i915_ttm_move, hacc, h, hk, hds]
    · subst h
      simp [__i915_ttm_move, hacc, hk, hds]
    · simp at h
  refine ⟨by rw [hmain], by rw [hmain], ?_, ?_⟩
  · intro hf
    rw [hmain]
    rcases hf with hf | hf
    · simp [resolveMoveFence, hf]
    · simp [resolveMoveFence, hf]
  · intro h0 hfg
    rw [hmain]
    simp [resolveMoveFence, h0, hfg, gpuResult]

/-- Claim C5 amended, witness at a concrete lmem destination: the
fallback is armed and, the blit fence having signalled success, the
continuation runs the do-nothing irq path. -/
theorem C5_witness :
    (__i915_ttm_move sampleEnvOk false false sampleBo false sampleLmem true true
        [0, 0, 0]).fence = .workF { fenceError := 0, opClear := false } false ∧
    (__i915_ttm_move sampleEnvOk false false sampleBo false sampleLmem true true
        [0, 0, 0]).workAllocated = true ∧
    resolveMoveFence false sampleBo.content sampleBo.numPages
        (__i915_ttm_move sampleEnvOk false false sampleBo false sampleLmem true true
          [0, 0, 0]) =
      (gpuResult { fenceError := 0, opClear := false } sampleBo.content [0, 0, 0]
        sampleBo.numPages, some .irq) := by
  have h := C5_arm_only_for_lmem sampleEnvOk false false sampleBo false sampleLmem true
    [0, 0, 0] { fenceError := 0, opClear := false } rfl (Or.inl rfl) rfl rfl rfl
  exact ⟨h.1, h.2.1, h.2.2.2 rfl rfl⟩

/-- Claim C6: with both fault switches enabled (and the external calls of
the path succeeding), no asynchronous fallback task is allocated, a
synchronous CPU copy runs right after the blit fence has been waited
out, and the move returns success with the destination equal to the
source. -/
theorem C6_both_faults_sync_copy
    (env : MoveEnv) (i915 : DrmI915) (rtt : Nat → Nat) (bo : BufferObject)
    (dstMem : TTMResource) (useTt : Bool) (dst0 : Content) (t : TTMTT)
    (httm : bo.ttm = some t) (hpop : t.populated = true)
    (hmadv : bo.madv_willneed = true)
    (hn : env.notify_ret = 0) (hp : env.populate_ret = 0)
    (hr : env.dst_rsgt_ret = 0) (hpd : env.prev_deps_ret = 0)
    (hctx : env.has_migrate_context = true) (hw : env.gt_wedged = false)
    (hcs : env.clear_submit_ret = 0) :
    (i915_ttm_move env true true i915 rtt bo dstMem useTt dst0).ret = 0 ∧
    (i915_ttm_move env true true i915 rtt bo dstMem useTt dst0).workAllocated = false ∧
    (i915_ttm_move env true true i915 rtt bo dstMem useTt dst0).syncMemcpy = true ∧
    (i915_ttm_move env true true i915 rtt bo dstMem useTt dst0).waitedDep = true ∧
    (i915_ttm_move env true true i915 rtt bo dstMem useTt dst0).finalDst = bo.content := by
  simp [i915_ttm_move, __i915_ttm_move, i915_ttm_accel_move, resolveMoveFence,
        ttm_move_memcpy, ERR_PTR, isErr, EINVAL, httm, hpop, hmadv, hn, hp, hr,
        hpd, hctx, hw, hcs]

/-- Claim C6, witness at a concrete populated buffer. -/
theorem C6_witness :
    (i915_ttm_move sampleEnvOk true true sampleI915 (fun r => r) sampleBo sampleLmem
        true [0, 0, 0]).ret = 0 ∧
    (i915_ttm_move sampleEnvOk true true sampleI915 (fun r => r) sampleBo sampleLmem
        true [0, 0, 0]).workAllocated = false ∧
    (i915_ttm_move sampleEnvOk true true sampleI915 (fun r => r) sampleBo sampleLmem
        true [0, 0, 0]).syncMemcpy = true ∧
    (i915_ttm_move sampleEnvOk true true sampleI915 (fun r => r) sampleBo sampleLmem
        true [0, 0, 0]).waitedDep = true ∧
    (i915_ttm_move sampleEnvOk true true sampleI915 (fun r => r) sampleBo sampleLmem
        true [0, 0, 0]).finalDst = sampleBo.content :=
  C6_both_faults_sync_copy sampleEnvOk sampleI915 (fun r => r) sampleBo sampleLmem
    true [0, 0, 0] sampleTT rfl rfl rfl rfl rfl rfl rfl rfl rfl rfl

/-- Claim C9: a move of a buffer whose retention policy is not
"willneed" purges the buffer, frees the destination placement, and
returns success without running the accelerated or CPU copy paths and
without preserving data. -/
theorem C9_discard_purge
    (env : MoveEnv) (fg fw : Bool) (i915 : DrmI915) (rtt : Nat → Nat)
    (bo : BufferObject) (dstMem : TTMResource) (useTt : Bool) (dst0 : Content)
    (hn : env.notify_ret = 0) (hmadv : bo.madv_willneed = false) :
    (i915_ttm_move env fg fw i915 rtt bo dstMem useTt dst0).ret = 0 ∧
    (i915_ttm_move env fg fw i915 rtt bo dstMem useTt dst0).purged = true ∧
    (i915_ttm_move env fg fw i915 rtt bo dstMem useTt dst0).dstFreed = true ∧
    (i915_ttm_move env fg fw i915 rtt bo dstMem useTt dst0).ranMove = false ∧
    (i915_ttm_move env fg fw i915 rtt bo dstMem useTt dst0).finalDst = dst0 := by
  simp [i915_ttm_move, hn, hmadv]

/-- Claim C9, witness at a concrete discardable buffer. -/
theorem C9_witness :
    (i915_ttm_move sampleEnvOk false false sampleI915 (fun r => r) sampleBoDiscard
        sampleLmem true [0, 0, 0]).ret = 0 ∧
    (i915_ttm_move sampleEnvOk false false sampleI915 (fun r => r) sampleBoDiscard
        sampleLmem true [0, 0, 0]).purged = true ∧
    (i915_ttm_move sampleEnvOk false false sampleI915 (fun r => r) sampleBoDiscard
        sampleLmem true [0, 0, 0]).dstFreed = true ∧
    (i915_ttm_move sampleEnvOk false false sampleI915 (fun r => r) sampleBoDiscard
        sampleLmem true [0, 0, 0]).ranMove = false ∧
    (i915_ttm_move sampleEnvOk false false sampleI915 (fun r => r) sampleBoDiscard
        sampleLmem true [0, 0, 0]).finalDst = [0, 0, 0] :=
  C9_discard_purge sampleEnvOk false false sampleI915 (fun r => r) sampleBoDiscard
    sampleLmem true [0, 0, 0] rfl rfl

/-! ## Claims about the unbind paths and the registry fast-fail -/

def sampleUnbindEnv : UnbindEnv :=
  { sync_ret := 0, lock_ret := 0, rsgt_present := true, reserve_ret := 0,
    trylock_ok := true, await_active_ok := true, pages_match := true }

def sampleNode : MMNode := { start := 0, size := 4096, color := 0 }

def samplePinnedSt : VmaSt :=
  { bound_global := true, bound_local := false, pin_count := 1, error_bit := false,
    can_fence := false, node := some sampleNode, pages_count := 2,
    pages_bind_count := 1, closed := false }

/-- Claim C4: a VMA with a positive pin count can never be unbound:
`i915_vma_unbind`, `__i915_vma_unbind` and `i915_vma_unbind_async` all
return -EAGAIN and leave the whole binding state (bind bits,
address-space node included) in place. -/
theorem C4_pinned_unbind_busy (env : UnbindEnv) (st : VmaSt) (nd : MMNode) (b : Bool)
    (hnode : st.node = some nd) (hpin : 0 < st.pin_count) (hsync : env.sync_ret = 0) :
    __i915_vma_unbind env st = (-EAGAIN, st) ∧
    i915_vma_unbind env st = (-EAGAIN, st) ∧
    i915_vma_unbind_async env st b = (-EAGAIN, st) := by
  simp [__i915_vma_unbind, i915_vma_unbind, i915_vma_unbind_async, hnode, hpin, hsync]

/-- Claim C4, witness at a concrete pinned and bound VMA. -/
theorem C4_witness :
    __i915_vma_unbind sampleUnbindEnv samplePinnedSt = (-EAGAIN, samplePinnedSt) ∧
    i915_vma_unbind sampleUnbindEnv samplePinnedSt = (-EAGAIN, samplePinnedSt) ∧
    i915_vma_unbind_async sampleUnbindEnv samplePinnedSt true =
      (-EAGAIN, samplePinnedSt) :=
  C4_pinned_unbind_busy sampleUnbindEnv samplePinnedSt sampleNode true rfl
    (by decide) rfl

/-- Claim C10: when `i915_vma_instance` must create a new VMA and the
view's computed mapping size exceeds the address space's total size, the
call fails with -E2BIG and the VMA index (tree and list) is unchanged. -/
theorem C10_view_too_big (newId objSize : Nat) (fenceSize : Nat → Nat) (vm : VmCfg)
    (view : GGTTView) (reg : VmaForest)
    (hmiss : i915_vma_lookup reg.tree vm.vmId view = none)
    (hbig : vmaViewSize objSize view > vm.total) :
    i915_vma_instance newId objSize fenceSize vm view reg = (.error (-E2BIG), reg) := by
  simp [i915_vma_instance, vma_create, hmiss, hbig]

def sampleVm : VmCfg := { vmId := 3, total := 2 ^ 20, is_ggtt := false }

/-- Claim C10, witness: a 512-page partial view in a 1 MiB address
space. -/
theorem C10_witness :
    i915_vma_instance 1 4096 (fun s => s) sampleVm (.partView 0 512)
        { tree := [], vlist := [] } =
      (.error (-E2BIG), { tree := [], vlist := [] }) :=
  C10_view_too_big 1 4096 (fun s => s) sampleVm (.partView 0 512)
    { tree := [], vlist := [] } rfl (by decide)

/-! ## Claim C8: failed pins roll back -/

/-- On any error, `i915_vma_bind` leaves the vma state untouched: the
bind bits are or-ed in only on the success returns. -/
theorem i915_vma_bind_error_eq (env : PinEnv) (st : VmaSt) (reqG reqU hw : Bool)
    (h : (i915_vma_bind env st reqG reqU hw).1 ≠ 0) :
    (i915_vma_bind env st reqG reqU hw).2 = st := by
  have hgen : ∀ r : Int × VmaSt, r = i915_vma_bind env st reqG reqU hw →
      r.1 ≠ 0 → r.2 = st := by
    intro r hr
    unfold i915_vma_bind at hr
    dsimp only at hr
    repeat' split at hr
    all_goals subst hr
    all_goals intro hh
    all_goals first
      | rfl
      | exact absurd rfl hh
  exact hgen _ rfl h

theorem pinInsertState_bound_global (env : PinEnv) (g : Bool) (st1 : VmaSt) :
    (pinInsertState env g st1).bound_global = st1.bound_global := by
  unfold pinInsertState __i915_vma_set_map_and_fenceable
  split_ifs <;> rfl

theorem pinInsertState_bound_local (env : PinEnv) (g : Bool) (st1 : VmaSt) :
    (pinInsertState env g st1).bound_local = st1.bound_local := by
  unfold pinInsertState __i915_vma_set_map_and_fenceable
  split_ifs <;> rfl

theorem pinInsertState_pin_count (env : PinEnv) (g : Bool) (st1 : VmaSt) :
    (pinInsertState env g st1).pin_count = st1.pin_count := by
  unfold pinInsertState __i915_vma_set_map_and_fenceable
  split_ifs <;> rfl

theorem pinInsertState_pages_count (env : PinEnv) (g : Bool) (st1 : VmaSt) :
    (pinInsertState env g st1).pages_count = st1.pages_count := by
  unfold pinInsertState __i915_vma_set_map_and_fenceable
  split_ifs <;> rfl

theorem vmaBindMaskZero_pinInsertState (env : PinEnv) (g : Bool) (st1 : VmaSt) :
    vmaBindMaskZero (pinInsertState env g st1) = vmaBindMaskZero st1 := by
  unfold vmaBindMaskZero
  rw [pinInsertState_bound_global, pinInsertState_bound_local]

theorem pinInsertState_of_bound (env : PinEnv) (g : Bool) (st1 : VmaSt)
    (hz : vmaBindMaskZero st1 = false) : pinInsertState env g st1 = st1 := by
  simp [pinInsertState, hz]

/-- On any error of the slow pin path, the bind bits, pin count, node
and pages count are as before. -/
theorem pin_ww_slow_error_fields (env : PinEnv) (isGgtt : Bool) (flags : PinFlags)
    (st1 : VmaSt) (hinv : vmaBindMaskZero st1 = true → st1.node = none) :
    (__i915_vma_pin_ww_slow env isGgtt flags st1).1 ≠ 0 →
    (__i915_vma_pin_ww_slow env isGgtt flags st1).2.bound_global = st1.bound_global ∧
    (__i915_vma_pin_ww_slow env isGgtt flags st1).2.bound_local = st1.bound_local ∧
    (__i915_vma_pin_ww_slow env isGgtt flags st1).2.pin_count = st1.pin_count ∧
    (__i915_vma_pin_ww_slow env isGgtt flags st1).2.node = st1.node ∧
    (__i915_vma_pin_ww_slow env isGgtt flags st1).2.pages_count = st1.pages_count := by
  unfold __i915_vma_pin_ww_slow
  split
  · intro _; exact ⟨rfl, rfl, rfl, rfl, rfl⟩
  · split_ifs with h1 h2 h3 h4
    · intro hh; exact absurd rfl hh
    · intro hh; exact absurd rfl hh
    · intro _; exact ⟨rfl, rfl, rfl, rfl, rfl⟩
    · intro _; exact ⟨rfl, rfl, rfl, rfl, rfl⟩
    · split
      rename_i e stb heq
      split
      · rename_i he
        intro _
        have hstb : stb = pinInsertState env isGgtt st1 := by
          have hb := i915_vma_bind_error_eq env (pinInsertState env isGgtt st1)
            flags.global flags.user (pinNeedsWork env)
          rw [heq] at hb
          exact hb he
        subst hstb
        by_cases hz : vmaBindMaskZero st1 = true
        · have hnode := hinv hz
          simp [vmaBindMaskZero_pinInsertState, hz, hnode, pinInsertState_bound_global,
                pinInsertState_bound_local, pinInsertState_pin_count,
                pinInsertState_pages_count]
        · have hz1 : vmaBindMaskZero st1 = false := by simpa using hz
          simp [pinInsertState_of_bound env isGgtt st1 hz1, hz1]
      · intro hh; exact absurd rfl hh

/-- Claim C8: whenever `i915_vma_pin_ww` returns an error, the VMA's
observable state is as before the call: no bind bit was gained, any
node allocated during the attempt was detached and freed, the acquired
backing-pages reference was released and the pin count was not
incremented.  The hypothesis is the vma invariant that an unbound vma
holds no address-space node. -/
theorem C8_pin_error_rollback (env : PinEnv) (isGgtt : Bool) (flags : PinFlags)
    (st : VmaSt)
    (hinv : vmaBindMaskZero st = true → st.node = none)
    (h : (i915_vma_pin_ww env isGgtt flags st).1 ≠ 0) :
    (i915_vma_pin_ww env isGgtt flags st).2.bound_global = st.bound_global ∧
    (i915_vma_pin_ww env isGgtt flags st).2.bound_local = st.bound_local ∧
    (i915_vma_pin_ww env isGgtt flags st).2.pin_count = st.pin_count ∧
    (i915_vma_pin_ww env isGgtt flags st).2.node = st.node ∧
    (i915_vma_pin_ww env isGgtt flags st).2.pages_count = st.pages_count := by
  revert h
  unfold i915_vma_pin_ww
  dsimp only
  split_ifs with h1 h2 h3
  · intro hh; exact absurd rfl hh
  · intro hh; exact absurd rfl hh
  · intro _; exact ⟨rfl, rfl, rfl, rfl, rfl⟩
  · intro hh
    have hinv1 : vmaBindMaskZero { st with pages_count := st.pages_count + 1 } = true →
        ({ st with pages_count := st.pages_count + 1 } : VmaSt).node = none := by
      intro hzz
      exact hinv (by simpa [vmaBindMaskZero] using hzz)
    have hs := pin_ww_slow_error_fields env isGgtt flags
      { st with pages_count := st.pages_count + 1 } hinv1 hh
    dsimp only at hs ⊢
    exact ⟨hs.1, hs.2.1, hs.2.2.1, hs.2.2.2.1, by rw [hs.2.2.2.2]; omega⟩

def samplePinEnvFail : PinEnv :=
  { get_pages_ret := 0, has_moving := false, bind_async := false,
    lock_objects_ret := 0, work_alloc_ok := true, allocate_va_range := false,
    pt_stash_ret := 0, pt_map_ret := 0, vma_res_ret := 0, mutex_ret := 0,
    active_ret := 0, insert_ret := -28, insert_node := sampleNode,
    fenceable := true, mappable := true, bind_dep_ret := 0, wait_moving_ret := 0,
    range_ok := true }

def sampleUnboundSt : VmaSt :=
  { bound_global := false, bound_local := false, pin_count := 0, error_bit := false,
    can_fence := false, node := none, pages_count := 0, pages_bind_count := 0,
    closed := false }

/-- Claim C8, witness: a pin whose address-space insertion fails with
-ENOSPC leaves the concrete unbound state untouched. -/
theorem C8_witness :
    (i915_vma_pin_ww samplePinEnvFail false
        { global := true, user := false, validate := false } sampleUnboundSt).2.bound_global =
      sampleUnboundSt.bound_global ∧
    (i915_vma_pin_ww samplePinEnvFail false
        { global := true, user := false, validate := false } sampleUnboundSt).2.bound_local =
      sampleUnboundSt.bound_local ∧
    (i915_vma_pin_ww samplePinEnvFail false
        { global := true, user := false, validate := false } sampleUnboundSt).2.pin_count =
      sampleUnboundSt.pin_count ∧
    (i915_vma_pin_ww samplePinEnvFail false
        { global := true, user := false, validate := false } sampleUnboundSt).2.node =
      sampleUnboundSt.node ∧
    (i915_vma_pin_ww samplePinEnvFail false
        { global := true, user := false, validate := false } sampleUnboundSt).2.pages_count =
      sampleUnboundSt.pages_count :=
  C8_pin_error_rollback samplePinEnvFail false
    { global := true, user := false, validate := false } sampleUnboundSt
    (fun _ => rfl) (by decide)

/-! ## Claim C3: singleton VMA per (object, vm, view) key -/

theorem ordering_then_eq (o p : Ordering) : o.then p = .eq ↔ o = .eq ∧ p = .eq := by
  cases o <;> simp [Ordering.then]

theorem vma_compare_eq_iff (v : VMA) (vmId : Nat) (view : GGTTView) :
    i915_vma_compare v vmId view = .eq ↔ (v.vmId = vmId ∧ v.view = view) := by
  unfold i915_vma_compare vmaKeyCompare
  simp only [ordering_then_eq, Nat.compare_eq_eq]
  constructor
  · rintro ⟨h1, h2, h3, h4⟩
    refine ⟨h1, ?_⟩
    cases hv : v.view <;> cases hw : view <;> simp_all [viewRank, viewParams]
  · rintro ⟨h1, h2⟩
    subst h1
    rw [h2]
    simp

theorem treeInsert_perm (v : VMA) : ∀ t : List VMA, (treeInsert v t).Perm (v :: t)
  | [] => by simp [treeInsert]
  | x :: t => by
    unfold treeInsert
    cases h : i915_vma_compare x v.vmId v.view with
    | lt => exact ((treeInsert_perm v t).cons x).trans (List.Perm.swap v x t)
    | eq => exact List.Perm.refl _
    | gt => exact List.Perm.refl _

theorem sameKeyR_symm :
    Symmetric (fun a b : VMA => ¬(a.vmId = b.vmId ∧ a.view = b.view)) := by
  intro a b hab hba
  exact hab ⟨hba.1.symm, hba.2.symm⟩

theorem lookup_none_no_match (t : List VMA) (vmId : Nat) (view : GGTTView)
    (hnone : i915_vma_lookup t vmId view = none) :
    ∀ x ∈ t, ¬(x.vmId = vmId ∧ x.view = view) := by
  intro x hx hk
  have h1 := List.find?_eq_none.mp hnone x hx
  have h2 : i915_vma_compare x vmId view = Ordering.eq :=
    (vma_compare_eq_iff x vmId view).mpr hk
  exact h1 (by rw [h2]; rfl)

theorem treeUnique_insert (v : VMA) (t : List VMA) (hu : TreeUnique t)
    (hnone : i915_vma_lookup t v.vmId v.view = none) :
    TreeUnique (treeInsert v t) := by
  unfold TreeUnique
  rw [(treeInsert_perm v t).pairwise_iff fun h1 => sameKeyR_symm h1]
  rw [List.pairwise_cons]
  refine ⟨?_, hu⟩
  intro x hx hk
  exact lookup_none_no_match t v.vmId v.view hnone x hx ⟨hk.1.symm, hk.2.symm⟩

theorem lookup_treeInsert_self (v : VMA) :
    ∀ t : List VMA, i915_vma_lookup t v.vmId v.view = none →
    i915_vma_lookup (treeInsert v t) v.vmId v.view = some v := by
  have hc : i915_vma_compare v v.vmId v.view = Ordering.eq :=
    (vma_compare_eq_iff v v.vmId v.view).mpr ⟨rfl, rfl⟩
  have hceq : (i915_vma_compare v v.vmId v.view == Ordering.eq) = true := by
    rw [hc]; rfl
  intro t
  induction t with
  | nil =>
    intro _
    show List.find? _ [v] = some v
    exact List.find?_cons_of_pos [] hceq
  | cons x t ih =>
    intro hnone
    have hx : ¬(i915_vma_compare x v.vmId v.view == Ordering.eq) = true := by
      have := List.find?_eq_none.mp hnone x (by simp)
      simpa using this
    have ht : i915_vma_lookup t v.vmId v.view = none := by
      have := hnone
      unfold i915_vma_lookup at this ⊢
      rwa [List.find?_cons_of_neg t (by simpa using hx)] at this
    unfold treeInsert
    cases h : i915_vma_compare x v.vmId v.view with
    | lt =>
      show List.find? _ (x :: treeInsert v t) = some v
      rw [List.find?_cons_of_neg _ (by simpa using hx)]
      exact ih ht
    | eq => exact absurd (by rw [h]; rfl) hx
    | gt =>
      show List.find? _ (v :: x :: t) = some v
      exact List.find?_cons_of_pos _ hceq



theorem orderingBeqEq {o : Ordering} : (o == Ordering.eq) = true ↔ o = Ordering.eq := by
  cases o <;> decide

def newVma (newId objSize : Nat) (vm : VmCfg) (view : GGTTView) : VMA :=
  { id := newId, vmId := vm.vmId, view := view, size := vmaViewSize objSize view }

/-- Claim C3: the VMA index keeps at most one live VMA per
(buffer, address-space, view) key — key distinctness is preserved by
`i915_vma_instance`; a creation racing against an existing entry
returns the previously inserted winner and leaves the index unchanged;
and every instance call for the key returns that same VMA from then
on.  The size hypotheses state that creation passes its size checks
(otherwise nothing is inserted at all). -/
theorem C3_vma_singleton (newId newId2 objSize : Nat) (fenceSize : Nat → Nat)
    (vm : VmCfg) (view : GGTTView) (reg : VmaForest)
    (hu : TreeUnique reg.tree)
    (hsz : vmaViewSize objSize view ≤ vm.total)
    (hggtt : vm.is_ggtt = true →
      (vmaViewSize objSize view < 2 ^ 32 ∧
       vmaViewSize objSize view ≤ fenceSize (vmaViewSize objSize view) ∧
       fenceSize (vmaViewSize objSize view) ≤ vm.total)) :
    TreeUnique (i915_vma_instance newId objSize fenceSize vm view reg).2.tree ∧
    (∀ w, i915_vma_lookup reg.tree vm.vmId view = some w →
      vma_create newId objSize fenceSize vm view reg = (.ok w, reg)) ∧
    (∀ v : VMA, (i915_vma_instance newId objSize fenceSize vm view reg).1 = .ok v →
      v.vmId = vm.vmId ∧ v.view = view ∧
      i915_vma_instance newId2 objSize fenceSize vm view
          (i915_vma_instance newId objSize fenceSize vm view reg).2 =
        (.ok v, (i915_vma_instance newId objSize fenceSize vm view reg).2)) := by
  have hTotal : ¬ vmaViewSize objSize view > vm.total := not_lt.mpr hsz
  have hGg : ¬ (vm.is_ggtt &&
      (decide (vmaViewSize objSize view ≥ 2 ^ 32) ||
       decide (fenceSize (vmaViewSize objSize view) < vmaViewSize objSize view) ||
       decide (fenceSize (vmaViewSize objSize view) > vm.total))) = true := by
    cases hg : vm.is_ggtt with
    | false => simp
    | true =>
      obtain ⟨a, b, c⟩ := hggtt hg
      simp only [Bool.and_eq_true, Bool.or_eq_true, decide_eq_true_eq]
      intro hcontra
      rcases hcontra.2 with (h | h) | h
      · exact absurd h (Nat.not_le.mpr a)
      · exact absurd h (Nat.not_lt.mpr b)
      · exact absurd h (Nat.not_lt.mpr c)
  cases hl : i915_vma_lookup reg.tree vm.vmId view with
  | some w0 =>
    have hl2 : List.find? (fun v => i915_vma_compare v vm.vmId view == Ordering.eq)
        reg.tree = some w0 := hl
    have hp : (i915_vma_compare w0 vm.vmId view == Ordering.eq) = true :=
      @List.find?_some VMA
        (fun v => i915_vma_compare v vm.vmId view == Ordering.eq) w0 reg.tree hl2
    have hkey : w0.vmId = vm.vmId ∧ w0.view = view :=
      (vma_compare_eq_iff w0 vm.vmId view).mp (orderingBeqEq.mp hp)
    have hinst : i915_vma_instance newId objSize fenceSize vm view reg = (.ok w0, reg) := by
      simp [i915_vma_instance, hl]
    refine ⟨?_, ?_, ?_⟩
    · rw [hinst]
      exact hu
    · intro w hw
      cases hw
      simp only [vma_create]
      rw [if_neg hTotal, if_neg hGg, hl]
      try rfl
    · intro v hv
      rw [hinst] at hv
      have hv2 : w0 = v := by simpa using hv
      subst hv2
      refine ⟨hkey.1, hkey.2, ?_⟩
      rw [hinst]
      simp [i915_vma_instance, hl]
  | none =>
    have hcreate : vma_create newId objSize fenceSize vm view reg =
        (.ok (newVma newId objSize vm view),
         { tree := treeInsert (newVma newId objSize vm view) reg.tree,
           vlist := if vm.is_ggtt then newVma newId objSize vm view :: reg.vlist
             else reg.vlist ++ [newVma newId objSize vm view] }) := by
      simp only [vma_create]
      rw [if_neg hTotal, if_neg hGg, hl]
      try rfl
    have hinst : i915_vma_instance newId objSize fenceSize vm view reg =
        vma_create newId objSize fenceSize vm view reg := by
      simp [i915_vma_instance, hl]
    refine ⟨?_, ?_, ?_⟩
    · rw [hinst, hcreate]
      exact treeUnique_insert _ reg.tree hu hl
    · intro w hw
      simp [hl] at hw
    · intro v hv
      rw [hinst, hcreate] at hv
      have hv2 : newVma newId objSize vm view = v := by simpa using hv
      subst hv2
      refine ⟨rfl, rfl, ?_⟩
      rw [hinst, hcreate]
      have hlook : i915_vma_lookup (treeInsert (newVma newId objSize vm view) reg.tree)
          vm.vmId view = some (newVma newId objSize vm view) :=
        lookup_treeInsert_self (newVma newId objSize vm view) reg.tree hl
      simp [i915_vma_instance, hlook]

def sampleRegEmpty : VmaForest := { tree := [], vlist := [] }

/-- Claim C3, witness at a concrete empty registry and normal view. -/
theorem C3_witness :
    TreeUnique (i915_vma_instance 1 4096 (fun s => s) sampleVm .normal sampleRegEmpty).2.tree ∧
    (∀ w, i915_vma_lookup sampleRegEmpty.tree sampleVm.vmId .normal = some w →
      vma_create 1 4096 (fun s => s) sampleVm .normal sampleRegEmpty =
        (.ok w, sampleRegEmpty)) ∧
    (∀ v : VMA,
      (i915_vma_instance 1 4096 (fun s => s) sampleVm .normal sampleRegEmpty).1 = .ok v →
      v.vmId = sampleVm.vmId ∧ v.view = .normal ∧
      i915_vma_instance 2 4096 (fun s => s) sampleVm .normal
          (i915_vma_instance 1 4096 (fun s => s) sampleVm .normal sampleRegEmpty).2 =
        (.ok v, (i915_vma_instance 1 4096 (fun s => s) sampleVm .normal sampleRegEmpty).2)) :=
  C3_vma_singleton 1 2 4096 (fun s => s) sampleVm .normal sampleRegEmpty
    (List.Pairwise.nil) (by decide) (by decide)

/-! ## Claim C7: successful insertion respects cache coloring -/

theorem takeWhile_append_cons {α : Type} (p : α → Bool) (n : α) :
    ∀ (A B : List α), (∀ a ∈ A, p a = true) → p n = false →
    (A ++ n :: B).takeWhile p = A
  | [], B, _, hn => by simp [List.takeWhile_cons, hn]
  | x :: A, B, hA, hn => by
    have hx : p x = true := hA x (by simp)
    have ih := takeWhile_append_cons p n A B (fun a ha => hA a (by simp [ha])) hn
    simp [List.takeWhile_cons, hx, ih]

theorem dropWhile_append_cons {α : Type} (q : α → Bool) (n : α) :
    ∀ (A B : List α), (∀ a ∈ A, q a = true) → q n = true →
    (∀ b, B.head? = some b → q b = false) →
    (A ++ n :: B).dropWhile q = B
  | [], B, _, hn, hB => by
    simp only [List.nil_append, List.dropWhile_cons, hn, if_true]
    cases B with
    | nil => rfl
    | cons b B1 =>
      have hb : q b = false := hB b rfl
      simp [List.dropWhile_cons, hb]
  | x :: A, B, hA, hn, hB => by
    have hx : q x = true := hA x (by simp)
    simp only [List.cons_append, List.dropWhile_cons, hx, if_true]
    exact dropWhile_append_cons q n A B (fun a ha => hA a (by simp [ha])) hn hB

theorem place_valid (hc : Bool) (l : List MMNode) (n : MMNode)
    (hsz : ∀ m ∈ l, 0 < m.size) (hn : 0 < n.size)
    (hover : l.any (fun m => overlapsB m n) = false)
    (hcol : colorOkB hc l n = true) :
    i915_gem_valid_gtt_space hc
      (l.takeWhile (fun m => m.start < n.start) ++
        n :: l.dropWhile (fun m => m.start < n.start)) n = true := by
  cases hc with
  | false => simp [i915_gem_valid_gtt_space]
  | true =>
    have hA : ∀ a ∈ l.takeWhile (fun m => m.start < n.start),
        (decide (a.start < n.start)) = true := by
      intro a ha
      exact @List.mem_takeWhile_imp MMNode
        (fun m => decide (m.start < n.start)) l a ha
    have htake : (l.takeWhile (fun m => m.start < n.start) ++
        n :: l.dropWhile (fun m => m.start < n.start)).takeWhile
          (fun m => m.start < n.start) =
        l.takeWhile (fun m => m.start < n.start) :=
      takeWhile_append_cons _ n _ _ hA (by simp)
    have hBhead : ∀ b, (l.dropWhile (fun m => m.start < n.start)).head? = some b →
        (decide (b.start ≤ n.start)) = false := by
      intro b hb
      have hbl : b ∈ l := by
        have hmem : b ∈ l.dropWhile (fun m => m.start < n.start) :=
          List.mem_of_mem_head? hb
        exact List.dropWhile_subset _ hmem
      have hnotlt : (decide (b.start < n.start)) = false := by
        have := List.head?_dropWhile_not (fun m => m.start < n.start) l
        rw [hb] at this
        exact this
      have hge : n.start ≤ b.start := by
        simpa using hnotlt
      have hneq : b.start ≠ n.start := by
        intro heq
        have hov := List.any_eq_false.mp hover b hbl
        apply hov
        have hbs := hsz b hbl
        simp only [overlapsB, heq]
        simp
        omega
      simp
      omega
    have hdrop : (l.takeWhile (fun m => m.start < n.start) ++
        n :: l.dropWhile (fun m => m.start < n.start)).dropWhile
          (fun m => m.start ≤ n.start) =
        l.dropWhile (fun m => m.start < n.start) := by
      apply dropWhile_append_cons
      · intro a ha
        have := hA a ha
        simp at this ⊢
        omega
      · simp
      · exact hBhead
    unfold colorOkB prevNode nextNode at hcol
    simp only [Bool.not_true, Bool.false_or] at hcol
    rw [Bool.and_eq_true] at hcol
    unfold i915_gem_valid_gtt_space
    rw [htake, hdrop]
    rw [if_neg (by decide : ¬((!true) = true))]
    rw [Bool.and_eq_true]
    constructor
    · rcases hgl : (l.takeWhile (fun m => m.start < n.start)).getLast? with _ | pp
      · rw [hgl]
      · rw [hgl]
        have h1 := hcol.1
        rw [hgl] at h1
        simp only [Bool.or_eq_true, beq_iff_eq, decide_eq_true_eq] at h1
        rcases h1 with h2 | h2
        · simp [h2]
        · simp [h2]
    · rcases hhd : (l.dropWhile (fun m => m.start < n.start)).head? with _ | mm
      · rw [hhd]
      · rw [hhd]
        have h1 := hcol.2
        rw [hhd] at h1
        simp only [Bool.or_eq_true, beq_iff_eq, decide_eq_true_eq] at h1
        rcases h1 with h2 | h2
        · simp [h2]
        · simp [h2]



theorem gtt_reserve_ok_valid (hc : Bool) (total : Nat) (l lx : List MMNode)
    (node : MMNode) (hsz : ∀ m ∈ l, 0 < m.size) (hns : 0 < node.size)
    (heq : i915_gem_gtt_reserve hc total l node = .ok lx) :
    i915_gem_valid_gtt_space hc lx node = true := by
  unfold i915_gem_gtt_reserve at heq
  split at heq
  · exact absurd heq (by simp)
  · split at heq
    · exact absurd heq (by simp)
    · split at heq
      · exact absurd heq (by simp)
      · rename_i hb1 hb2 hb3
        simp only [Except.ok.injEq] at heq
        subst heq
        exact place_valid hc l node hsz hns (by simpa using hb2) (by simpa using hb3)

theorem gtt_insert_ok_valid (hc : Bool) (total : Nat) (l lx : List MMNode)
    (node : MMNode) (hsz : ∀ m ∈ l, 0 < m.size) (hns : 0 < node.size)
    (heq : i915_gem_gtt_insert hc total l node = .ok lx) :
    i915_gem_valid_gtt_space hc lx node = true := by
  unfold i915_gem_gtt_insert at heq
  split at heq
  · exact absurd heq (by simp)
  · split at heq
    · exact absurd heq (by simp)
    · split at heq
      · exact absurd heq (by simp)
      · rename_i hb1 hb2 hb3
        simp only [Except.ok.injEq] at heq
        subst heq
        exact place_valid hc l node hsz hns (by simpa using hb2) (by simpa using hb3)

/-- Claim C7: in an address space with cache coloring, every successful
`i915_vma_insert` leaves the inserted node with neighbors that share
its color or are separated from it by a hole —
`i915_gem_valid_gtt_space` holds on the resulting node list. -/
theorem C7_insert_valid_gtt_space (hc : Bool) (total cacheLevel vmaSize : Nat) (l : List MMNode)
    (req : VmaInsertReq) (n : MMNode) (l1 : List MMNode)
    (hsz : ∀ m ∈ l, 0 < m.size)
    (hpos : 0 < max req.reqSize vmaSize)
    (hins : i915_vma_insert hc total cacheLevel vmaSize l req = .ok (n, l1)) :
    i915_gem_valid_gtt_space hc l1 n = true := by
  unfold i915_vma_insert at hins
  dsimp only at hins
  split at hins
  · exact absurd hins (by simp)
  · split at hins
    · split at hins
      · exact absurd hins (by simp)
      · split at hins
        · rename_i lx heq
          simp only [Except.ok.injEq, Prod.mk.injEq] at hins
          obtain ⟨hn1, hl1⟩ := hins
          subst hn1
          subst hl1
          exact gtt_reserve_ok_valid hc total l lx _ hsz hpos heq
        · exact absurd hins (by simp)
    · split at hins
      · rename_i lx heq
        simp only [Except.ok.injEq, Prod.mk.injEq] at hins
        obtain ⟨hn1, hl1⟩ := hins
        subst hn1
        subst hl1
        exact gtt_insert_ok_valid hc total l lx _ hsz hpos heq
      · exact absurd hins (by simp)

/-- Claim C7, witness: inserting at a fixed offset separated from a
differently-colored neighbor by a hole succeeds and satisfies
`i915_gem_valid_gtt_space`. -/
theorem C7_witness :
    i915_gem_valid_gtt_space true
      [{ start := 0, size := 4096, color := 1 },
       { start := 8192, size := 4096, color := 2 }]
      { start := 8192, size := 4096, color := 2 } = true :=
  C7_insert_valid_gtt_space true (2 ^ 32) 2 4096
    [{ start := 0, size := 4096, color := 1 }]
    { reqSize := 4096, alignment := 4096, fixedOffset := some 8192,
      candidateStart := 0 }
    { start := 8192, size := 4096, color := 2 }
    [{ start := 0, size := 4096, color := 1 },
     { start := 8192, size := 4096, color := 2 }]
    (by decide) (by decide) (by rfl)

end I915
